import Mathlib

/-!
Verification of the cuRAND backend helper header
(`src/rng/backends/curand/curand_helper.hpp`) of the oneMKL interfaces
repository.

The header contains two error-translation wrappers around native status
enumerations, two call-wrapping macros, and six small data-parallel
transform kernels (floating-point range transform, its accurate/clamping
variant, integer range transform, Bernoulli-from-uniform; each in a
buffer and a USM flavour).

Modelling conventions:
* Floating-point arithmetic is embedded as exact rational arithmetic (ℚ);
  the rounding behaviour of IEEE types is not modelled, the algebraic
  per-element formulas are taken verbatim from the kernels.
* 32-bit machine integers are embedded as `Int`/`Nat` with explicit
  reduction modulo 2^32 (`wrap32`, `toInt32`) at the points where the
  C++ code converts or may wrap.
* The SYCL kernels are data-parallel maps over the element index; they
  are embedded as `List.map` over the buffer contents (buffer and USM
  variants separately, each translated from its own source lambda), and,
  where a frame property over raw pointers is concerned, as updates of a
  flat address-indexed memory.
* The status enumerations `curandStatus_t` / `cudaError_t` live in the
  external vendor headers.  They are embedded as inductive types whose
  named constructors are exactly the cases of the respective `switch` in
  the source, plus an `unrecognized` constructor carrying the numeric
  value of any other status a C enum object may hold.  The numeric codes
  of the named constants are fixed by the external vendor headers, which
  are outside this repository; the theorems below do not depend on the
  particular values.
-/

namespace Curand

/-- Embedding of the native `curandStatus_t` enumeration: the recognized
status codes are the cases of the `switch` in `curand_error_map`
(`curand_helper.hpp` lines 38-69); `unrecognized n` stands for any other
numeric value of the underlying C enum type. -/
inductive curandStatus_t where
  | CURAND_STATUS_SUCCESS
  | CURAND_STATUS_VERSION_MISMATCH
  | CURAND_STATUS_NOT_INITIALIZED
  | CURAND_STATUS_ALLOCATION_FAILED
  | CURAND_STATUS_TYPE_ERROR
  | CURAND_STATUS_OUT_OF_RANGE
  | CURAND_STATUS_LENGTH_NOT_MULTIPLE
  | CURAND_STATUS_DOUBLE_PRECISION_REQUIRED
  | CURAND_STATUS_LAUNCH_FAILURE
  | CURAND_STATUS_PREEXISTING_FAILURE
  | CURAND_STATUS_INITIALIZATION_FAILED
  | CURAND_STATUS_ARCH_MISMATCH
  | CURAND_STATUS_INTERNAL_ERROR
  | unrecognized (n : Int)
deriving DecidableEq

/-- Embedding of the native `cudaError_t` enumeration: the recognized
status codes are the cases of the `switch` in `cuda_error_map`
(`curand_helper.hpp` lines 97-115); `unrecognized n` stands for any other
numeric value of the underlying C enum type. -/
inductive cudaError_t where
  | cudaSuccess
  | cudaErrorNotPermitted
  | cudaErrorIncompatibleDriverContext
  | cudaErrorInvalidDevice
  | cudaErrorInvalidValue
  | cudaErrorMemoryAllocation
  | cudaErrorLaunchOutOfResources
  | unrecognized (n : Int)
deriving DecidableEq

/-- Numeric value of a `curandStatus_t`, i.e. the result of
`static_cast<int>` on it.  The values of the named constants are those
assigned by the external vendor header `curand.h` (not part of this
repository). -/
def curandStatusToInt : curandStatus_t → Int
  | .CURAND_STATUS_SUCCESS => 0
  | .CURAND_STATUS_VERSION_MISMATCH => 100
  | .CURAND_STATUS_NOT_INITIALIZED => 101
  | .CURAND_STATUS_ALLOCATION_FAILED => 102
  | .CURAND_STATUS_TYPE_ERROR => 103
  | .CURAND_STATUS_OUT_OF_RANGE => 104
  | .CURAND_STATUS_LENGTH_NOT_MULTIPLE => 105
  | .CURAND_STATUS_DOUBLE_PRECISION_REQUIRED => 106
  | .CURAND_STATUS_LAUNCH_FAILURE => 201
  | .CURAND_STATUS_PREEXISTING_FAILURE => 202
  | .CURAND_STATUS_INITIALIZATION_FAILED => 203
  | .CURAND_STATUS_ARCH_MISMATCH => 204
  | .CURAND_STATUS_INTERNAL_ERROR => 999
  | .unrecognized n => n

/-- Numeric value of a `cudaError_t`, i.e. the result of
`static_cast<int>` on it.  The values of the named constants are those
assigned by the external vendor header (not part of this repository);
the theorems below do not depend on the particular values. -/
def cudaErrorToInt : cudaError_t → Int
  | .cudaSuccess => 0
  | .cudaErrorNotPermitted => 800
  | .cudaErrorIncompatibleDriverContext => 803
  | .cudaErrorInvalidDevice => 101
  | .cudaErrorInvalidValue => 1
  | .cudaErrorMemoryAllocation => 2
  | .cudaErrorLaunchOutOfResources => 701
  | .unrecognized n => n

/-- Embedding of `curand_error::curand_error_map`
(`curand_helper.hpp` lines 38-69): maps each recognized cuRAND status
code to its documented name and every other value to the fallback
string. -/
def curand_error_map : curandStatus_t → String
  | .CURAND_STATUS_SUCCESS => "CURAND_STATUS_SUCCESS"
  | .CURAND_STATUS_VERSION_MISMATCH => "CURAND_STATUS_VERSION_MISMATCH"
  | .CURAND_STATUS_NOT_INITIALIZED => "CURAND_STATUS_NOT_INITIALIZED"
  | .CURAND_STATUS_ALLOCATION_FAILED => "CURAND_STATUS_ALLOCATION_FAILED"
  | .CURAND_STATUS_TYPE_ERROR => "CURAND_STATUS_TYPE_ERROR"
  | .CURAND_STATUS_OUT_OF_RANGE => "CURAND_STATUS_OUT_OF_RANGE"
  | .CURAND_STATUS_LENGTH_NOT_MULTIPLE => "CURAND_STATUS_LENGTH_NOT_MULTIPLE"
  | .CURAND_STATUS_DOUBLE_PRECISION_REQUIRED => "CURAND_STATUS_DOUBLE_PRECISION_REQUIRED"
  | .CURAND_STATUS_LAUNCH_FAILURE => "CURAND_STATUS_LAUNCH_FAILURE"
  | .CURAND_STATUS_PREEXISTING_FAILURE => "CURAND_STATUS_PREEXISTING_FAILURE"
  | .CURAND_STATUS_INITIALIZATION_FAILED => "CURAND_STATUS_INITIALIZATION_FAILED"
  | .CURAND_STATUS_ARCH_MISMATCH => "CURAND_STATUS_ARCH_MISMATCH"
  | .CURAND_STATUS_INTERNAL_ERROR => "CURAND_STATUS_INTERNAL_ERROR"
  | .unrecognized _ => "<unknown>"

/-- Embedding of `cuda_error::cuda_error_map`
(`curand_helper.hpp` lines 97-115): maps each recognized CUDA runtime
status code to its documented name and every other value to the fallback
string. -/
def cuda_error_map : cudaError_t → String
  | .cudaSuccess => "cudaSuccess"
  | .cudaErrorNotPermitted => "cudaErrorNotPermitted"
  | .cudaErrorIncompatibleDriverContext => "cudaErrorIncompatibleDriverContext"
  | .cudaErrorInvalidDevice => "cudaErrorInvalidDevice"
  | .cudaErrorInvalidValue => "cudaErrorInvalidValue"
  | .cudaErrorMemoryAllocation => "cudaErrorMemoryAllocation"
  | .cudaErrorLaunchOutOfResources => "cudaErrorLaunchOutOfResources"
  | .unrecognized _ => "<unknown>"

/-- Embedding of the `curand_error` exception class
(`curand_helper.hpp` lines 36-93): it carries the `std::runtime_error`
message (`what()`) and the stored `error_number` field. -/
structure curand_error where
  message : String
  error_number : Int
deriving DecidableEq

/-- Embedding of the `curand_error` constructor
(`curand_helper.hpp` lines 77-80): the runtime-error message is the
given message concatenated with the mapped status name, and
`error_number` is the status cast to `int`. -/
def curand_error.make (message : String) (result : curandStatus_t) : curand_error :=
  { message := message ++ curand_error_map result
    error_number := curandStatusToInt result }

/-- Embedding of `curand_error::getErrorNumber`
(`curand_helper.hpp` lines 90-92). -/
def curand_error.getErrorNumber (e : curand_error) : Int :=
  e.error_number

/-- Embedding of the `cuda_error` exception class
(`curand_helper.hpp` lines 95-138): it carries the `std::runtime_error`
message (`what()`) and the stored `error_number` field. -/
structure cuda_error where
  message : String
  error_number : Int
deriving DecidableEq

/-- Embedding of the `cuda_error` constructor
(`curand_helper.hpp` lines 122-125): the runtime-error message is the
given message concatenated with the mapped status name, and
`error_number` is the status cast to `int`. -/
def cuda_error.make (message : String) (error : cudaError_t) : cuda_error :=
  { message := message ++ cuda_error_map error
    error_number := cudaErrorToInt error }

/-- Embedding of `cuda_error::getErrorNumber`
(`curand_helper.hpp` lines 135-137). -/
def cuda_error.getErrorNumber (e : cuda_error) : Int :=
  e.error_number

/-- Embedding of the `CUDA_CALL` macro (`curand_helper.hpp` lines
140-144): given the status returned by the wrapped native call, it
raises a `cuda_error` carrying the stringified function name followed by
" : " when the status is not `cudaSuccess`, and returns normally
otherwise. -/
def CUDA_CALL (funcName : String) (err : cudaError_t) : Except cuda_error Unit :=
  if err ≠ cudaError_t.cudaSuccess then
    Except.error (cuda_error.make (funcName ++ " : ") err)
  else
    Except.ok ()

/-- Embedding of the `CURAND_CALL` macro (`curand_helper.hpp` lines
146-150): given the status returned by the wrapped native call, it
raises a `curand_error` carrying the stringified function name followed
by " : " when the status is not `CURAND_STATUS_SUCCESS`, and returns
normally otherwise. -/
def CURAND_CALL (funcName : String) (status : curandStatus_t) : Except curand_error Unit :=
  if status ≠ curandStatus_t.CURAND_STATUS_SUCCESS then
    Except.error (curand_error.make (funcName ++ " : ") status)
  else
    Except.ok ()

/-- C5: every recognized cuRAND status code and every recognized CUDA
runtime status code is mapped by `curand_error_map` / `cuda_error_map`
to its exact documented name, and every status value outside the
recognized set is mapped to the fallback string `"<unknown>"`, which is
non-empty. -/
theorem error_maps_exact_names_and_fallback :
    (curand_error_map .CURAND_STATUS_SUCCESS = "CURAND_STATUS_SUCCESS"
      ∧ curand_error_map .CURAND_STATUS_VERSION_MISMATCH = "CURAND_STATUS_VERSION_MISMATCH"
      ∧ curand_error_map .CURAND_STATUS_NOT_INITIALIZED = "CURAND_STATUS_NOT_INITIALIZED"
      ∧ curand_error_map .CURAND_STATUS_ALLOCATION_FAILED = "CURAND_STATUS_ALLOCATION_FAILED"
      ∧ curand_error_map .CURAND_STATUS_TYPE_ERROR = "CURAND_STATUS_TYPE_ERROR"
      ∧ curand_error_map .CURAND_STATUS_OUT_OF_RANGE = "CURAND_STATUS_OUT_OF_RANGE"
      ∧ curand_error_map .CURAND_STATUS_LENGTH_NOT_MULTIPLE
          = "CURAND_STATUS_LENGTH_NOT_MULTIPLE"
      ∧ curand_error_map .CURAND_STATUS_DOUBLE_PRECISION_REQUIRED
          = "CURAND_STATUS_DOUBLE_PRECISION_REQUIRED"
      ∧ curand_error_map .CURAND_STATUS_LAUNCH_FAILURE = "CURAND_STATUS_LAUNCH_FAILURE"
      ∧ curand_error_map .CURAND_STATUS_PREEXISTING_FAILURE
          = "CURAND_STATUS_PREEXISTING_FAILURE"
      ∧ curand_error_map .CURAND_STATUS_INITIALIZATION_FAILED
          = "CURAND_STATUS_INITIALIZATION_FAILED"
      ∧ curand_error_map .CURAND_STATUS_ARCH_MISMATCH = "CURAND_STATUS_ARCH_MISMATCH"
      ∧ curand_error_map .CURAND_STATUS_INTERNAL_ERROR = "CURAND_STATUS_INTERNAL_ERROR")
    ∧ (cuda_error_map .cudaSuccess = "cudaSuccess"
      ∧ cuda_error_map .cudaErrorNotPermitted = "cudaErrorNotPermitted"
      ∧ cuda_error_map .cudaErrorIncompatibleDriverContext
          = "cudaErrorIncompatibleDriverContext"
      ∧ cuda_error_map .cudaErrorInvalidDevice = "cudaErrorInvalidDevice"
      ∧ cuda_error_map .cudaErrorInvalidValue = "cudaErrorInvalidValue"
      ∧ cuda_error_map .cudaErrorMemoryAllocation = "cudaErrorMemoryAllocation"
      ∧ cuda_error_map .cudaErrorLaunchOutOfResources = "cudaErrorLaunchOutOfResources")
    ∧ (∀ n : Int, curand_error_map (.unrecognized n) = "<unknown>")
    ∧ (∀ n : Int, cuda_error_map (.unrecognized n) = "<unknown>")
    ∧ "<unknown>" ≠ "" := by
  refine ⟨⟨rfl, rfl, rfl, rfl, rfl, rfl, rfl, rfl, rfl, rfl, rfl, rfl, rfl⟩,
    ⟨rfl, rfl, rfl, rfl, rfl, rfl, rfl⟩, fun n => rfl, fun n => rfl, by decide⟩

/-- C6: for every status value and every operation-name prefix, a
constructed `curand_error` / `cuda_error` carries a message equal to the
operation name concatenated with the mapped status name, and its
`getErrorNumber` accessor returns the original numeric status code cast
to `int`; illustrated on a concrete instance. -/
theorem error_message_and_number :
    (∀ (msg : String) (s : curandStatus_t),
        (curand_error.make msg s).message = msg ++ curand_error_map s
        ∧ (curand_error.make msg s).getErrorNumber = curandStatusToInt s)
    ∧ (∀ (msg : String) (e : cudaError_t),
        (cuda_error.make msg e).message = msg ++ cuda_error_map e
        ∧ (cuda_error.make msg e).getErrorNumber = cudaErrorToInt e)
    ∧ (curand_error.make "curandCreateGenerator : "
          .CURAND_STATUS_ALLOCATION_FAILED).message
        = "curandCreateGenerator : CURAND_STATUS_ALLOCATION_FAILED"
    ∧ (curand_error.make "curandCreateGenerator : "
          .CURAND_STATUS_ALLOCATION_FAILED).getErrorNumber = 102 := by
  exact ⟨fun msg s => ⟨rfl, rfl⟩, fun msg e => ⟨rfl, rfl⟩, by decide, by decide⟩

/-- C7: a call wrapped by `CUDA_CALL` / `CURAND_CALL` raises an error if
and only if the returned status is not the success status
(`cudaSuccess` / `CURAND_STATUS_SUCCESS`); a success status raises
nothing (the wrapper returns normally). -/
theorem call_macros_raise_iff_not_success :
    (∀ (name : String) (err : cudaError_t),
        (∃ e, CUDA_CALL name err = Except.error e) ↔ err ≠ cudaError_t.cudaSuccess)
    ∧ (∀ (name : String) (err : cudaError_t),
        CUDA_CALL name err = Except.ok () ↔ err = cudaError_t.cudaSuccess)
    ∧ (∀ (name : String) (status : curandStatus_t),
        (∃ e, CURAND_CALL name status = Except.error e)
          ↔ status ≠ curandStatus_t.CURAND_STATUS_SUCCESS)
    ∧ (∀ (name : String) (status : curandStatus_t),
        CURAND_CALL name status = Except.ok ()
          ↔ status = curandStatus_t.CURAND_STATUS_SUCCESS) := by
  refine ⟨fun name err => ?_, fun name err => ?_, fun name status => ?_, fun name status => ?_⟩
    <;> simp only [CUDA_CALL, CURAND_CALL] <;> split <;> simp_all

/-- Embedding of the buffer variant of `range_transform_fp`
(`curand_helper.hpp` lines 170-180): the kernel maps every element of
the buffer in place to `acc[id] * (b - a) + a`.  Floating-point
arithmetic is modelled exactly over ℚ. -/
def range_transform_fp (a b : ℚ) (r : List ℚ) : List ℚ :=
  r.map (fun v => v * (b - a) + a)

/-- Embedding of the USM variant of `range_transform_fp`
(`curand_helper.hpp` lines 203-210): the kernel maps every element of
the pointed-to array in place to `r[id] * (b - a) + a`. -/
def range_transform_fp_usm (a b : ℚ) (r : List ℚ) : List ℚ :=
  r.map (fun v => v * (b - a) + a)

/-- Embedding of the buffer variant of `range_transform_fp_accurate`
(`curand_helper.hpp` lines 229-246): the kernel first maps every element
to `acc[id] * (b - a) + a`, then sets it to `a` when the result is below
`a`, else to `b` when the result is above `b`. -/
def range_transform_fp_accurate (a b : ℚ) (r : List ℚ) : List ℚ :=
  r.map (fun v =>
    let t := v * (b - a) + a
    if t < a then a else if t > b then b else t)

/-- Embedding of the USM variant of `range_transform_fp_accurate`
(`curand_helper.hpp` lines 268-282): same per-element computation on a
pointed-to array. -/
def range_transform_fp_accurate_usm (a b : ℚ) (r : List ℚ) : List ℚ :=
  r.map (fun v =>
    let t := v * (b - a) + a
    if t < a then a else if t > b then b else t)

/-- The per-element affine rescaling sends `[0, 1)` into `[a, b)`. -/
theorem fp_elem_mem_Ico (a b v : ℚ) (hab : a < b) (h0 : 0 ≤ v) (h1 : v < 1) :
    a ≤ v * (b - a) + a ∧ v * (b - a) + a < b := by
  constructor
  · nlinarith [mul_nonneg h0 (sub_nonneg.2 hab.le)]
  · nlinarith [mul_pos (sub_pos.2 h1) (sub_pos.2 hab)]

/-- On inputs from `[0, 1)` the accurate kernel's clamping never fires
and the result is the plain rescaling. -/
theorem fp_accurate_elem_eq (a b v : ℚ) (hab : a < b) (h0 : 0 ≤ v) (h1 : v < 1) :
    (let t := v * (b - a) + a
      if t < a then a else if t > b then b else t) = v * (b - a) + a := by
  obtain ⟨hl, hr⟩ := fp_elem_mem_Ico a b v hab h0 h1
  simp only []
  rw [if_neg (by linarith), if_neg (by linarith)]

/-- C3: for all bounds `a < b` and every buffer of values drawn from
`[0, 1)`, the plain fp range transform (both the buffer and the USM
variant) rescales each element in place to `value * (b - a) + a`, and
every resulting element lies in `[a, b)`. -/
theorem range_transform_fp_in_Ico (a b : ℚ) (r : List ℚ) (hab : a < b)
    (hin : ∀ v ∈ r, 0 ≤ v ∧ v < 1) :
    range_transform_fp a b r = r.map (fun v => v * (b - a) + a)
    ∧ range_transform_fp_usm a b r = r.map (fun v => v * (b - a) + a)
    ∧ (∀ y ∈ range_transform_fp a b r, a ≤ y ∧ y < b)
    ∧ (∀ y ∈ range_transform_fp_usm a b r, a ≤ y ∧ y < b) := by
  refine ⟨rfl, rfl, ?_, ?_⟩ <;>
  · intro y hy
    simp only [range_transform_fp, range_transform_fp_usm, List.mem_map] at hy
    obtain ⟨v, hv, rfl⟩ := hy
    exact fp_elem_mem_Ico a b v hab (hin v hv).1 (hin v hv).2

/-- C3 witness: the claim instantiated at `a = 0`, `b = 1`,
`r = [0, 1/2]`. -/
theorem range_transform_fp_in_Ico_witness :
    ((0 : ℚ) < 1 ∧ ∀ v ∈ [(0 : ℚ), 1/2], 0 ≤ v ∧ v < 1)
    ∧ (range_transform_fp 0 1 [0, 1/2] = [(0 : ℚ), 1/2].map (fun v => v * (1 - 0) + 0)
        ∧ range_transform_fp_usm 0 1 [0, 1/2] = [(0 : ℚ), 1/2].map (fun v => v * (1 - 0) + 0)
        ∧ (∀ y ∈ range_transform_fp 0 1 [0, 1/2], 0 ≤ y ∧ y < 1)
        ∧ (∀ y ∈ range_transform_fp_usm 0 1 [0, 1/2], 0 ≤ y ∧ y < 1)) :=
  ⟨⟨by norm_num, by norm_num⟩, range_transform_fp_in_Ico 0 1 [0, 1/2] (by norm_num) (by norm_num)⟩

/-- C1: for all bounds `a < b` and every buffer of values drawn from
`[0, 1)`, the accurate fp range transform (both variants) first computes
`value * (b - a) + a` per element and then clamps results below `a` to
`a` and results above `b` to `b` (shown on singleton buffers for
arbitrary element values), and the resulting output lies in the
closed-open interval `[a, b)`. -/
theorem range_transform_fp_accurate_clamps_and_in_Ico (a b : ℚ) (r : List ℚ) (hab : a < b)
    (hin : ∀ v ∈ r, 0 ≤ v ∧ v < 1) :
    (∀ v : ℚ, v * (b - a) + a < a → range_transform_fp_accurate a b [v] = [a])
    ∧ (∀ v : ℚ, ¬v * (b - a) + a < a → b < v * (b - a) + a →
        range_transform_fp_accurate a b [v] = [b])
    ∧ (∀ v : ℚ, ¬v * (b - a) + a < a → ¬b < v * (b - a) + a →
        range_transform_fp_accurate a b [v] = [v * (b - a) + a])
    ∧ (∀ y ∈ range_transform_fp_accurate a b r, a ≤ y ∧ y < b)
    ∧ (∀ y ∈ range_transform_fp_accurate_usm a b r, a ≤ y ∧ y < b) := by
  refine ⟨?_, ?_, ?_, ?_, ?_⟩
  · intro v hv
    simp only [range_transform_fp_accurate, List.map_cons, List.map_nil]
    rw [if_pos hv]
  · intro v hv hb
    simp only [range_transform_fp_accurate, List.map_cons, List.map_nil]
    rw [if_neg hv, if_pos hb]
  · intro v hv hb
    simp only [range_transform_fp_accurate, List.map_cons, List.map_nil]
    rw [if_neg hv, if_neg hb]
  all_goals
  · intro y hy
    simp only [range_transform_fp_accurate, range_transform_fp_accurate_usm,
      List.mem_map] at hy
    obtain ⟨v, hv, rfl⟩ := hy
    rw [fp_accurate_elem_eq a b v hab (hin v hv).1 (hin v hv).2]
    exact fp_elem_mem_Ico a b v hab (hin v hv).1 (hin v hv).2

/-- C1 witness: the claim instantiated at `a = 0`, `b = 1`,
`r = [0, 1/2]`, with the clamping conjuncts further instantiated at
out-of-range values. -/
theorem range_transform_fp_accurate_witness :
    ((0 : ℚ) < 1 ∧ ∀ v ∈ [(0 : ℚ), 1/2], 0 ≤ v ∧ v < 1)
    ∧ ((-1 : ℚ) * (1 - 0) + 0 < 0 ∧ range_transform_fp_accurate 0 1 [-1] = [0])
    ∧ (¬(2 : ℚ) * (1 - 0) + 0 < 0 ∧ (1 : ℚ) < 2 * (1 - 0) + 0
        ∧ range_transform_fp_accurate 0 1 [2] = [1])
    ∧ (∀ y ∈ range_transform_fp_accurate 0 1 [0, 1/2], 0 ≤ y ∧ y < 1)
    ∧ (∀ y ∈ range_transform_fp_accurate_usm 0 1 [0, 1/2], 0 ≤ y ∧ y < 1) := by
  have h := range_transform_fp_accurate_clamps_and_in_Ico 0 1 [0, 1/2]
    (by norm_num) (by norm_num)
  exact ⟨⟨by norm_num, by norm_num⟩,
    ⟨by norm_num, h.1 (-1) (by norm_num)⟩,
    ⟨by norm_num, by norm_num, h.2.1 2 (by norm_num) (by norm_num)⟩,
    h.2.2.2.1, h.2.2.2.2⟩

/-- Reduction of an integer modulo 2^32: the value of a C++ expression
converted to `std::uint32_t`. -/
def wrap32 (x : Int) : Int :=
  x % 4294967296

/-- Conversion of a (mod-2^32) value to `std::int32_t`: the
two's-complement representative in `[-2^31, 2^31)`. -/
def toInt32 (x : Int) : Int :=
  if wrap32 x < 2147483648 then wrap32 x else wrap32 x - 4294967296

/-- Embedding of the buffer variant of `range_transform_int`
instantiated at `T = std::int32_t` (`curand_helper.hpp` lines 302-314):
per element, `acc_out[id] = a + acc_in[id] % (b - a)` with C++
semantics — the `std::uint32_t` input is reduced mod 2^32, `b - a` is
computed in 32-bit arithmetic and converted to `std::uint32_t`
(both reductions are `wrap32`), `%` is the unsigned remainder, and the
unsigned sum is converted back to `std::int32_t` (`toInt32`). -/
def range_transform_int_i32 (a b : Int) (inb : List Int) : List Int :=
  inb.map (fun raw => toInt32 (wrap32 a + wrap32 raw % wrap32 (b - a)))

/-- Embedding of the USM variant of `range_transform_int` at
`T = std::int32_t` (`curand_helper.hpp` lines 337-344): per element,
`out[id] = a + in[id] % (b - a)`, same semantics as the buffer
variant. -/
def range_transform_int_i32_usm (a b : Int) (inb : List Int) : List Int :=
  inb.map (fun raw => toInt32 (wrap32 a + wrap32 raw % wrap32 (b - a)))

/-- Embedding of the buffer variant of `range_transform_int`
instantiated at `T = std::uint32_t` (`curand_helper.hpp` lines 302-314):
per element, `acc_out[id] = a + acc_in[id] % (b - a)` in `std::uint32_t`
arithmetic, i.e. subtraction, addition and remainder modulo 2^32. -/
def range_transform_int_u32 (a b : Nat) (inb : List Nat) : List Nat :=
  inb.map (fun raw => (a + raw % ((b + 4294967296 - a) % 4294967296)) % 4294967296)

/-- Embedding of the USM variant of `range_transform_int` at
`T = std::uint32_t` (`curand_helper.hpp` lines 337-344): per element,
`out[id] = a + in[id] % (b - a)` in `std::uint32_t` arithmetic. -/
def range_transform_int_u32_usm (a b : Nat) (inb : List Nat) : List Nat :=
  inb.map (fun raw => (a + raw % ((b + 4294967296 - a) % 4294967296)) % 4294967296)

/-- The `std::int32_t` per-element integer range computation agrees with
the mathematical `a + raw % (b - a)` and lands in `[a, b)` whenever the
bounds are `std::int32_t` values with `a < b` and the raw input is a
`std::uint32_t` value. -/
theorem int_elem_i32_eq_and_mem (a b raw : Int) (ha : -2147483648 ≤ a)
    (hb : b ≤ 2147483647) (hab : a < b) (hr0 : 0 ≤ raw) (hr1 : raw < 4294967296) :
    toInt32 (wrap32 a + wrap32 raw % wrap32 (b - a)) = a + raw % (b - a)
    ∧ a ≤ a + raw % (b - a) ∧ a + raw % (b - a) < b := by
  have hba : wrap32 (b - a) = b - a := by unfold wrap32; omega
  have hraw : wrap32 raw = raw := by unfold wrap32; omega
  rw [hba, hraw]
  have hm0 : 0 ≤ raw % (b - a) := Int.emod_nonneg raw (by omega)
  have hm1 : raw % (b - a) < b - a := Int.emod_lt_of_pos raw (by omega)
  refine ⟨?_, by omega, by omega⟩
  generalize raw % (b - a) = m at hm0 hm1
  unfold toInt32 wrap32
  split <;> omega

/-- The `std::uint32_t` per-element integer range computation agrees
with the mathematical `a + raw % (b - a)` and lands in `[a, b)` whenever
the bounds are `std::uint32_t` values with `a < b` and the raw input is
a `std::uint32_t` value. -/
theorem int_elem_u32_eq_and_mem (a b raw : Nat) (hab : a < b)
    (hb : b < 4294967296) (_hr : raw < 4294967296) :
    (a + raw % ((b + 4294967296 - a) % 4294967296)) % 4294967296 = a + raw % (b - a)
    ∧ a ≤ a + raw % (b - a) ∧ a + raw % (b - a) < b := by
  have hba : (b + 4294967296 - a) % 4294967296 = b - a := by omega
  rw [hba]
  have hm1 : raw % (b - a) < b - a := Nat.mod_lt raw (by omega)
  refine ⟨?_, by omega, by omega⟩
  generalize raw % (b - a) = m at hm1
  omega

/-- C2: for `T = std::int32_t` and `T = std::uint32_t`, for every pair
of in-range bounds `a < b` and every buffer of `std::uint32_t` raw
inputs, the integer range transform writes `out = a + raw % (b - a)` to
the output buffer and every output satisfies `a ≤ out < b`; in
particular raw inputs `[5, 17, 33]` with `a = 10`, `b = 20` yield
outputs `[15, 17, 13]`. -/
theorem range_transform_int_formula_and_bounds :
    (∀ (a b : Int) (inb : List Int), -2147483648 ≤ a → b ≤ 2147483647 → a < b →
      (∀ raw ∈ inb, 0 ≤ raw ∧ raw < 4294967296) →
      range_transform_int_i32 a b inb = inb.map (fun raw => a + raw % (b - a))
      ∧ ∀ y ∈ range_transform_int_i32 a b inb, a ≤ y ∧ y < b)
    ∧ (∀ (a b : Nat) (inb : List Nat), a < b → b < 4294967296 →
      (∀ raw ∈ inb, raw < 4294967296) →
      range_transform_int_u32 a b inb = inb.map (fun raw => a + raw % (b - a))
      ∧ ∀ y ∈ range_transform_int_u32 a b inb, a ≤ y ∧ y < b)
    ∧ range_transform_int_i32 10 20 [5, 17, 33] = [15, 17, 13]
    ∧ range_transform_int_u32 10 20 [5, 17, 33] = [15, 17, 13] := by
  refine ⟨?_, ?_, by decide, by decide⟩
  · intro a b inb ha hb hab hin
    constructor
    · exact List.map_congr_left fun raw hraw =>
        (int_elem_i32_eq_and_mem a b raw ha hb hab (hin raw hraw).1 (hin raw hraw).2).1
    · intro y hy
      simp only [range_transform_int_i32, List.mem_map] at hy
      obtain ⟨raw, hraw, rfl⟩ := hy
      obtain ⟨heq, h1, h2⟩ :=
        int_elem_i32_eq_and_mem a b raw ha hb hab (hin raw hraw).1 (hin raw hraw).2
      rw [heq]
      exact ⟨h1, h2⟩
  · intro a b inb hab hb hin
    constructor
    · exact List.map_congr_left fun raw hraw =>
        (int_elem_u32_eq_and_mem a b raw hab hb (hin raw hraw)).1
    · intro y hy
      simp only [range_transform_int_u32, List.mem_map] at hy
      obtain ⟨raw, hraw, rfl⟩ := hy
      obtain ⟨heq, h1, h2⟩ := int_elem_u32_eq_and_mem a b raw hab hb (hin raw hraw)
      rw [heq]
      exact ⟨h1, h2⟩

/-- C2 witness: the claim instantiated at `a = 10`, `b = 20`,
inputs `[5, 17, 33]`, for both element types. -/
theorem range_transform_int_witness :
    ((-2147483648 : Int) ≤ 10 ∧ (20 : Int) ≤ 2147483647 ∧ (10 : Int) < 20
      ∧ (∀ raw ∈ [(5 : Int), 17, 33], 0 ≤ raw ∧ raw < 4294967296)
      ∧ (10 : Nat) < 20 ∧ (20 : Nat) < 4294967296
      ∧ (∀ raw ∈ [(5 : Nat), 17, 33], raw < 4294967296))
    ∧ (range_transform_int_i32 10 20 [5, 17, 33]
        = [(5 : Int), 17, 33].map (fun raw => 10 + raw % (20 - 10))
      ∧ ∀ y ∈ range_transform_int_i32 10 20 [5, 17, 33], 10 ≤ y ∧ y < 20)
    ∧ (range_transform_int_u32 10 20 [5, 17, 33]
        = [(5 : Nat), 17, 33].map (fun raw => 10 + raw % (20 - 10))
      ∧ ∀ y ∈ range_transform_int_u32 10 20 [5, 17, 33], 10 ≤ y ∧ y < 20) :=
  ⟨⟨by decide, by decide, by decide, by decide, by decide, by decide, by decide⟩,
    range_transform_int_formula_and_bounds.1 10 20 [5, 17, 33]
      (by decide) (by decide) (by decide) (by decide),
    range_transform_int_formula_and_bounds.2.1 10 20 [5, 17, 33]
      (by decide) (by decide) (by decide)⟩

/-- Embedding of the buffer variant of `sample_bernoulli_from_uniform`
(`curand_helper.hpp` lines 364-376): per element,
`acc_out[id] = acc_in[id] < p`, the boolean being converted to the
integer output type as 1 (true) or 0 (false). -/
def sample_bernoulli_from_uniform (p : ℚ) (inb : List ℚ) : List Int :=
  inb.map (fun v => if v < p then 1 else 0)

/-- Embedding of the USM variant of `sample_bernoulli_from_uniform`
(`curand_helper.hpp` lines 399-405): per element,
`out[id] = in[id] < p`. -/
def sample_bernoulli_from_uniform_usm (p : ℚ) (inb : List ℚ) : List Int :=
  inb.map (fun v => if v < p then 1 else 0)

/-- C4: for every probability `p` in `[0, 1]` and every buffer of
uniform samples, the Bernoulli transform (both variants) writes output
element `i` equal to 1 if and only if input element `i` is strictly less
than `p`, and every output element is exactly 0 or 1. -/
theorem sample_bernoulli_iff_lt (p : ℚ) (inb : List ℚ) (_h0 : 0 ≤ p) (_h1 : p ≤ 1) :
    (∀ (i : Nat) (v : ℚ), inb[i]? = some v →
      ((sample_bernoulli_from_uniform p inb)[i]? = some 1 ↔ v < p))
    ∧ (∀ y ∈ sample_bernoulli_from_uniform p inb, y = 0 ∨ y = 1)
    ∧ (∀ (i : Nat) (v : ℚ), inb[i]? = some v →
      ((sample_bernoulli_from_uniform_usm p inb)[i]? = some 1 ↔ v < p))
    ∧ (∀ y ∈ sample_bernoulli_from_uniform_usm p inb, y = 0 ∨ y = 1) := by
  have hiff : ∀ (i : Nat) (v : ℚ), inb[i]? = some v →
      ((inb.map (fun v => if v < p then (1 : Int) else 0))[i]? = some 1 ↔ v < p) := by
    intro i v hv
    rw [List.getElem?_map, hv]
    by_cases hvp : v < p <;> simp [hvp]
  have hmem : ∀ y ∈ inb.map (fun v => if v < p then (1 : Int) else 0), y = 0 ∨ y = 1 := by
    intro y hy
    obtain ⟨v, _, rfl⟩ := List.mem_map.1 hy
    by_cases hvp : v < p <;> simp [hvp]
  exact ⟨hiff, hmem, hiff, hmem⟩

/-- C4 witness: the claim instantiated at `p = 1/2`,
inputs `[0, 1/2]`. -/
theorem sample_bernoulli_iff_lt_witness :
    ((0 : ℚ) ≤ 1/2 ∧ (1/2 : ℚ) ≤ 1)
    ∧ ((∀ (i : Nat) (v : ℚ), [(0 : ℚ), 1/2][i]? = some v →
        ((sample_bernoulli_from_uniform (1/2) [0, 1/2])[i]? = some 1 ↔ v < 1/2))
      ∧ (∀ y ∈ sample_bernoulli_from_uniform (1/2) [0, 1/2], y = 0 ∨ y = 1)
      ∧ (∀ (i : Nat) (v : ℚ), [(0 : ℚ), 1/2][i]? = some v →
        ((sample_bernoulli_from_uniform_usm (1/2) [0, 1/2])[i]? = some 1 ↔ v < 1/2))
      ∧ (∀ y ∈ sample_bernoulli_from_uniform_usm (1/2) [0, 1/2], y = 0 ∨ y = 1)) :=
  ⟨⟨by norm_num, by norm_num⟩,
    sample_bernoulli_iff_lt (1/2) [0, 1/2] (by norm_num) (by norm_num)⟩

/-- C8: for each of the four transforms the buffer variant and the USM
variant compute the same per-element output function: for every choice
of bounds/probability and input buffer contents, both variants produce
identical outputs.  (The integer transform is covered at both of its
element types.) -/
theorem buffer_usm_variants_agree :
    (∀ (a b : ℚ) (r : List ℚ),
      range_transform_fp a b r = range_transform_fp_usm a b r)
    ∧ (∀ (a b : ℚ) (r : List ℚ),
      range_transform_fp_accurate a b r = range_transform_fp_accurate_usm a b r)
    ∧ (∀ (a b : Int) (inb : List Int),
      range_transform_int_i32 a b inb = range_transform_int_i32_usm a b inb)
    ∧ (∀ (a b : Nat) (inb : List Nat),
      range_transform_int_u32 a b inb = range_transform_int_u32_usm a b inb)
    ∧ (∀ (p : ℚ) (inb : List ℚ),
      sample_bernoulli_from_uniform p inb = sample_bernoulli_from_uniform_usm p inb) :=
  ⟨fun _ _ _ => rfl, fun _ _ _ => rfl, fun _ _ _ => rfl, fun _ _ _ => rfl, fun _ _ => rfl⟩

/-- C9: for every transform and every index `i`, output element `i` is a
function only of input element `i` and the scalar parameters: two runs
whose input buffers agree at index `i` (however they differ elsewhere)
produce the same output element at index `i`. -/
theorem output_elem_depends_only_on_input_elem (i : Nat) :
    (∀ (a b : ℚ) (r r' : List ℚ), r[i]? = r'[i]? →
      (range_transform_fp a b r)[i]? = (range_transform_fp a b r')[i]?)
    ∧ (∀ (a b : ℚ) (r r' : List ℚ), r[i]? = r'[i]? →
      (range_transform_fp_accurate a b r)[i]? = (range_transform_fp_accurate a b r')[i]?)
    ∧ (∀ (a b : Int) (inb inb' : List Int), inb[i]? = inb'[i]? →
      (range_transform_int_i32 a b inb)[i]? = (range_transform_int_i32 a b inb')[i]?)
    ∧ (∀ (p : ℚ) (inb inb' : List ℚ), inb[i]? = inb'[i]? →
      (sample_bernoulli_from_uniform p inb)[i]? = (sample_bernoulli_from_uniform p inb')[i]?) := by
  refine ⟨?_, ?_, ?_, ?_⟩
  · intro a b r r' h
    simp only [range_transform_fp, List.getElem?_map, h]
  · intro a b r r' h
    simp only [range_transform_fp_accurate, List.getElem?_map, h]
  · intro a b inb inb' h
    simp only [range_transform_int_i32, List.getElem?_map, h]
  · intro p inb inb' h
    simp only [sample_bernoulli_from_uniform, List.getElem?_map, h]

/-- C9 witness: the claim instantiated at index 0 with input buffers
that agree at index 0 and differ at index 1. -/
theorem output_elem_depends_only_on_input_elem_witness :
    ([(0 : ℚ), 5][0]? = [(0 : ℚ), 7][0]?
      ∧ [(3 : Int), 5][0]? = [(3 : Int), 7][0]?)
    ∧ (range_transform_fp 0 1 [0, 5])[0]? = (range_transform_fp 0 1 [0, 7])[0]?
    ∧ (range_transform_fp_accurate 0 1 [0, 5])[0]?
        = (range_transform_fp_accurate 0 1 [0, 7])[0]?
    ∧ (range_transform_int_i32 10 20 [3, 5])[0]?
        = (range_transform_int_i32 10 20 [3, 7])[0]?
    ∧ (sample_bernoulli_from_uniform 0 [0, 5])[0]?
        = (sample_bernoulli_from_uniform 0 [0, 7])[0]? :=
  ⟨⟨rfl, rfl⟩,
    (output_elem_depends_only_on_input_elem 0).1 0 1 [0, 5] [0, 7] rfl,
    (output_elem_depends_only_on_input_elem 0).2.1 0 1 [0, 5] [0, 7] rfl,
    (output_elem_depends_only_on_input_elem 0).2.2.1 10 20 [3, 5] [3, 7] rfl,
    (output_elem_depends_only_on_input_elem 0).2.2.2 0 [0, 5] [0, 7] rfl⟩

/-- Embedding of the USM variant of `range_transform_int` at
`T = std::uint32_t` over a flat address-indexed device memory
(`curand_helper.hpp` lines 340-343): `in` and `out` are the offsets of
the two buffers; work-item `id` reads cell `in + id` and writes only
cell `out + id` with `a + in[id] % (b - a)` in `std::uint32_t`
arithmetic. -/
def range_transform_int_usm_mem (a b n pin pout : Nat) (mem : Nat → Nat) : Nat → Nat :=
  fun addr =>
    if pout ≤ addr ∧ addr < pout + n then
      (a + mem (pin + (addr - pout)) % ((b + 4294967296 - a) % 4294967296)) % 4294967296
    else mem addr

/-- Embedding of the USM variant of `sample_bernoulli_from_uniform`
over a flat address-indexed device memory (`curand_helper.hpp` line
403): work-item `id` reads cell `in + id` and writes only cell
`out + id` with `in[id] < p`. -/
def sample_bernoulli_from_uniform_usm_mem (p : ℚ) (n pin pout : Nat)
    (mem : Nat → ℚ) : Nat → ℚ :=
  fun addr =>
    if pout ≤ addr ∧ addr < pout + n then
      (if mem (pin + (addr - pout)) < p then 1 else 0)
    else mem addr

/-- C10: the integer range transform and the Bernoulli-from-uniform
transform write only the output region of memory; in particular, when
the input region is disjoint from the output region, the input buffer's
`n` cells are unchanged by the call. -/
theorem int_and_bernoulli_leave_input_unchanged (a b n pin pout : Nat) (p : ℚ)
    (memI : Nat → Nat) (memQ : Nat → ℚ) (hdisj : pin + n ≤ pout ∨ pout + n ≤ pin) :
    (∀ addr, pin ≤ addr → addr < pin + n →
      range_transform_int_usm_mem a b n pin pout memI addr = memI addr)
    ∧ (∀ addr, ¬(pout ≤ addr ∧ addr < pout + n) →
      range_transform_int_usm_mem a b n pin pout memI addr = memI addr)
    ∧ (∀ addr, pin ≤ addr → addr < pin + n →
      sample_bernoulli_from_uniform_usm_mem p n pin pout memQ addr = memQ addr)
    ∧ (∀ addr, ¬(pout ≤ addr ∧ addr < pout + n) →
      sample_bernoulli_from_uniform_usm_mem p n pin pout memQ addr = memQ addr) := by
  refine ⟨?_, ?_, ?_, ?_⟩
  · intro addr h1 h2
    unfold range_transform_int_usm_mem
    rw [if_neg (by omega)]
  · intro addr h
    unfold range_transform_int_usm_mem
    rw [if_neg h]
  · intro addr h1 h2
    unfold sample_bernoulli_from_uniform_usm_mem
    rw [if_neg (by omega)]
  · intro addr h
    unfold sample_bernoulli_from_uniform_usm_mem
    rw [if_neg h]

/-- C10 witness: the claim instantiated at `n = 1`, input region at
offset 0, output region at offset 1. -/
theorem int_and_bernoulli_leave_input_unchanged_witness :
    ((0 : Nat) + 1 ≤ 1 ∨ (1 : Nat) + 1 ≤ 0)
    ∧ ((∀ addr, 0 ≤ addr → addr < 0 + 1 →
        range_transform_int_usm_mem 10 20 1 0 1 (fun _ => 3) addr = (fun _ => (3 : Nat)) addr)
      ∧ (∀ addr, ¬(1 ≤ addr ∧ addr < 1 + 1) →
        range_transform_int_usm_mem 10 20 1 0 1 (fun _ => 3) addr = (fun _ => (3 : Nat)) addr)
      ∧ (∀ addr, 0 ≤ addr → addr < 0 + 1 →
        sample_bernoulli_from_uniform_usm_mem (1/2) 1 0 1 (fun _ => 0) addr
          = (fun _ => (0 : ℚ)) addr)
      ∧ (∀ addr, ¬(1 ≤ addr ∧ addr < 1 + 1) →
        sample_bernoulli_from_uniform_usm_mem (1/2) 1 0 1 (fun _ => 0) addr
          = (fun _ => (0 : ℚ)) addr)) :=
  ⟨Or.inl (by decide),
    int_and_bernoulli_leave_input_unchanged 10 20 1 0 1 (1/2)
      (fun _ => 3) (fun _ => 0) (Or.inl (by decide))⟩

end Curand
